import Mathlib

/-!
# Verification of the LectureLogic session lifecycle (Class-Note-taker)

A shallow embedding of the repository's core: the session state machine of
`src/App.tsx`, the base64 payload path of `src/services/geminiService.ts`
(`blobToBase64` / `generateNotesFromAudio`), the line formatter
`renderMarkdown`, and the audio-graph lifecycle of
`src/components/Visualizer.tsx`.

React state semantics are modelled explicitly: each `useState` field lives in
an `AppModel` record; event handlers read the current record; the
`MediaRecorder.onstop` callback closes over the render-scoped `duration`
value present when `startRecording` ran (that captured value is stored in the
`Recorder` record), mirroring the JavaScript closure.
-/

namespace LectureLogic

/-- The six members of the `AppState` enum in `src/types.ts`. -/
inductive AppState where
  | IDLE
  | RECORDING
  | REVIEW
  | PROCESSING
  | COMPLETED
  | ERROR
deriving DecidableEq, Repr

/-- An audio `Blob`: raw captured bytes (each < 256) plus a mime-type string
(the source always constructs `new Blob(chunks, \x7b type: 'audio/webm' \x7d)`).
The `type` property is called `mime` because `type` is reserved in Lean. -/
structure Blob where
  bytes : List Nat
  mime : String
deriving DecidableEq, Repr

/-- The `NoteSession` record of `src/types.ts`.  `id`/`timestamp` are opaque
(`crypto.randomUUID()` / `Date.now()`), modelled as fresh naturals; `audioUrl`
is the object-URL handle, modelled as the index of the `URL.createObjectURL`
call that produced it. -/
structure NoteSession where
  id : Nat
  timestamp : Nat
  audioBlob : Option Blob
  audioUrl : Option Nat
  duration : Nat
  notes : Option String
  topic : Option String := none
deriving DecidableEq, Repr

/-- The `MediaRecorder` held in `mediaRecorderRef`, together with the value of
the render-scoped `duration` variable captured by the `onstop` closure at the
moment `startRecording` executed (`duration: duration` inside `onstop` reads
this captured constant, not the live counter). -/
structure Recorder where
  streamId : Nat
  capturedDuration : Nat
deriving DecidableEq, Repr

/-- The whole mutable state of the `App` component: the five `useState`
fields (`appState`, `session`, `stream`, `duration`, `error`), the refs
(`mediaRecorderRef`, `timerRef`), plus bookkeeping used only to state claims:
`inflight` is the blob handed to an un-resolved `generateNotesFromAudio` call,
`urlCreates`/`urlRevokes` count `URL.createObjectURL` / `URL.revokeObjectURL`
calls (the source never calls `revokeObjectURL`, so no step increments
`urlRevokes`), and `nextId` supplies fresh opaque identifiers. -/
structure AppModel where
  appState : AppState
  session : Option NoteSession
  stream : Option Nat
  duration : Nat
  error : Option String
  mediaRecorder : Option Recorder
  timer : Option Nat
  inflight : Option Blob
  urlCreates : Nat
  urlRevokes : Nat
  nextId : Nat
deriving DecidableEq, Repr

/-- The events the component's handlers and callbacks process.
`startCaptureOk`/`startCaptureFail` are the two resolutions of
`getUserMedia` inside `startRecording`; `tick` is the 1-second interval
callback; `stopCapture bytes` is `stopRecording` together with the recorder's
`onstop` firing with the buffered chunks `bytes`; `generateNotes` is the
click handler up to its suspension point; `genResolve ok notes` is the late
resolution of the awaited `generateNotesFromAudio` promise; `reset` is the
discard/new-recording handler. -/
inductive Event where
  | startCaptureOk
  | startCaptureFail
  | tick
  | stopCapture (bytes : List Nat)
  | generateNotes
  | genResolve (ok : Bool) (notes : String)
  | reset
deriving DecidableEq, Repr

/-- One step of the `App` component, transcribed handler by handler from
`src/App.tsx`:

* `startCaptureOk`: `setError(null)`; `setStream(...)`; create the recorder
  (whose `onstop` closure captures the current render's `duration`);
  `setAppState(RECORDING)`; `setDuration(0)`; `setInterval(..., 1000)`.
* `startCaptureFail`: the `catch` arm — only `setError("Microphone access
  denied or not available.")`; nothing else was acquired.
* `tick`: `setDuration(prev => prev + 1)`, live only while the interval is
  set.
* `stopCapture`: guarded by `mediaRecorderRef.current && appState ===
  RECORDING`; the recorder's `onstop` builds the blob, calls
  `URL.createObjectURL`, sets the session with `duration:` the *captured*
  render-time value, stops the stream tracks (`setStream(null)`); then
  `clearInterval`; `setAppState(REVIEW)`.
* `generateNotes`: guarded only by `session?.audioBlob` — no state check;
  `setAppState(PROCESSING)` and the call suspends holding the blob.
* `genResolve true notes`: `setSession(prev => prev ? \x7b...prev, notes\x7d :
  null)`; `setAppState(COMPLETED)`.
* `genResolve false _`: `setError("Failed to generate notes. Please try
  again.")`; `setAppState(REVIEW)`.
* `reset`: `setAppState(IDLE)`; `setSession(null)`; `setDuration(0)`;
  `setError(null)` — no `revokeObjectURL`, no `clearInterval`. -/
def step (e : Event) (s : AppModel) : AppModel :=
  match e with
  | .startCaptureOk =>
      { s with error := none
               stream := some s.nextId
               mediaRecorder := some { streamId := s.nextId, capturedDuration := s.duration }
               appState := .RECORDING
               duration := 0
               timer := some (s.nextId + 1)
               nextId := s.nextId + 2 }
  | .startCaptureFail =>
      { s with error := some "Microphone access denied or not available." }
  | .tick =>
      match s.timer with
      | some _ => { s with duration := s.duration + 1 }
      | none => s
  | .stopCapture bytes =>
      match s.mediaRecorder with
      | some r =>
          if s.appState = .RECORDING then
            { s with session := some { id := s.nextId
                                       timestamp := s.nextId
                                       audioBlob := some { bytes := bytes, mime := "audio/webm" }
                                       audioUrl := some s.urlCreates
                                       duration := r.capturedDuration
                                       notes := none }
                     urlCreates := s.urlCreates + 1
                     stream := none
                     timer := none
                     appState := .REVIEW
                     nextId := s.nextId + 1 }
          else s
      | none => s
  | .generateNotes =>
      match s.session with
      | some sess =>
          match sess.audioBlob with
          | some blob => { s with appState := .PROCESSING, inflight := some blob }
          | none => s
      | none => s
  | .genResolve ok notes =>
      match s.inflight with
      | some _ =>
          if ok then
            { s with session := s.session.map (fun prev => { prev with notes := some notes })
                     appState := .COMPLETED
                     inflight := none }
          else
            { s with error := some "Failed to generate notes. Please try again."
                     appState := .REVIEW
                     inflight := none }
      | none => s
  | .reset =>
      { s with appState := .IDLE, session := none, duration := 0, error := none }

/-- The initial component state: `useState(AppState.IDLE)`, all other fields
null/zero. -/
def init : AppModel :=
  { appState := .IDLE, session := none, stream := none, duration := 0, error := none
    mediaRecorder := none, timer := none, inflight := none
    urlCreates := 0, urlRevokes := 0, nextId := 0 }

/-- Run a sequence of events from a state. -/
def run : List Event → AppModel → AppModel
  | [], s => s
  | e :: rest, s => run rest (step e s)

/-! ## Visualizer audio-graph lifecycle (`src/components/Visualizer.tsx`)

The effect runs on every change of `[stream, isRecording]`: React first runs
the previous effect's cleanup, then the new effect body.  The body bails out
unless a stream is present, `isRecording` is true and the canvas ref is set;
otherwise it lazily creates the shared `AudioContext` (once, kept in
`audioContextRef`), creates a fresh `AnalyserNode` and
`MediaStreamAudioSourceNode`, and connects source → analyser.  The cleanup
cancels the animation frame and calls `sourceRef.current?.disconnect()`
(removing every edge out of the source node); the `analyserRef` disconnect is
commented out in the source, and the context is never closed. -/

/-- The dependencies of the `Visualizer` effect for one run: whether `stream`
is non-null, the `isRecording` flag, and whether `canvasRef.current` is set. -/
structure VizInput where
  hasStream : Bool
  isRecording : Bool
  hasCanvas : Bool
deriving DecidableEq, Repr

/-- The refs of the `Visualizer` component plus the audio graph's edge list.
Nodes are opaque ids; `edges` records the `connect` calls currently in force
(`(a, b)` means node `a` is connected into node `b`); `ctxClosed` records
whether `close()` was ever called on the shared context (the source never
calls it). -/
structure VizState where
  audioContext : Option Nat
  ctxClosed : Bool
  analyserNode : Option Nat
  sourceNode : Option Nat
  edges : List (Nat × Nat)
  animationFrame : Option Nat
  nextId : Nat
deriving DecidableEq, Repr

/-- Initial `Visualizer` refs: everything unset. -/
def vizInit : VizState :=
  { audioContext := none, ctxClosed := false, analyserNode := none, sourceNode := none
    edges := [], animationFrame := none, nextId := 0 }

/-- The effect body: bail out unless `stream && isRecording &&
canvasRef.current`; create the `AudioContext` only if absent; create analyser
and source nodes; `source.connect(analyser)`; start the draw loop. -/
def vizSetup (i : VizInput) (s : VizState) : VizState :=
  if i.hasStream && i.isRecording && i.hasCanvas then
    let ctx := s.audioContext.getD s.nextId
    let base := if s.audioContext.isSome then s.nextId else s.nextId + 1
    { s with audioContext := some ctx
             analyserNode := some base
             sourceNode := some (base + 1)
             edges := s.edges ++ [(base + 1, base)]
             animationFrame := some (base + 2)
             nextId := base + 3 }
  else s

/-- The effect cleanup: `cancelAnimationFrame`; `sourceRef.current?.disconnect()`
drops every edge whose origin is the current source node.  The `AudioContext`
is deliberately not closed (`We don't close audio context here to reuse it`);
the `analyserRef` disconnect line is commented out in the source. -/
def vizCleanup (s : VizState) : VizState :=
  { s with animationFrame := none
           edges := s.edges.filter (fun e => !(s.sourceNode == some e.1)) }

/-- One dependency-change cycle of the effect: run the body for the new
dependencies, then (when analysis next stops — deps change again or the
component unmounts) run its cleanup.  A list of rounds therefore observes the
state exactly at the "analysis stopped" points. -/
def vizRound (i : VizInput) (s : VizState) : VizState :=
  vizCleanup (vizSetup i s)

/-- Run a sequence of effect cycles. -/
def vizRun : List VizInput → VizState → VizState
  | [], s => s
  | i :: rest, s => vizRun rest (vizRound i s)

/-! ## The markdown line formatter (`renderMarkdown` in `src/App.tsx`) -/

/-- JavaScript's `String.prototype.split(sep)` on a list of characters:
`""` splits to `[""]`, and each separator occurrence starts a new chunk. -/
def jsSplit (sep : Char) : List Char → List (List Char)
  | [] => [[]]
  | c :: rest =>
      if c = sep then [] :: jsSplit sep rest
      else
        match jsSplit sep rest with
        | [] => [[c]]
        | h :: t => (c :: h) :: t

/-- JavaScript's `String.prototype.replace(pattern, '')` with a plain string
pattern: remove the first occurrence of `pat` (only), leave the rest alone. -/
def listReplaceFirst (pat : List Char) : List Char → List Char
  | [] => []
  | c :: rest =>
      if pat.isPrefixOf (c :: rest) then (c :: rest).drop pat.length
      else c :: listReplaceFirst pat rest

/-- JavaScript's `String.prototype.replace(/\*\*/g, '')`: delete every
(non-overlapping, left-to-right) occurrence of `**`. -/
def removeBold : List Char → List Char
  | '*' :: '*' :: rest => removeBold rest
  | c :: rest => c :: removeBold rest
  | [] => []

/-- The regex `/^\d+\. /`: a non-empty digit run, then `'.'`, then a space;
returns the remainder after the matched part (what
`line.replace(/^\d+\. /, '')` keeps), or `none` when the line does not
match. -/
def matchNumList (line : List Char) : Option (List Char) :=
  let digits := line.takeWhile Char.isDigit
  let rest := line.dropWhile Char.isDigit
  if digits.isEmpty then none
  else
    match rest with
    | '.' :: ' ' :: r => some r
    | _ => none

/-- The typed display blocks produced by `renderMarkdown`, one constructor
per branch of its per-line `if` chain (`<h3>`, `<h2>`, `<h1>`, plain `<li>`,
`list-decimal` `<li>`, bold `<p>`, the empty spacer `<div>`, plain `<p>`). -/
inductive Block where
  | h1 (text : String)
  | h2 (text : String)
  | h3 (text : String)
  | li (text : String)
  | liDecimal (text : String)
  | boldP (text : String)
  | spacer
  | p (text : String)
deriving DecidableEq, Repr

/-- The per-line classifier: the body of the `map` inside `renderMarkdown`,
branch for branch and in the source's order. -/
def lineToBlock (line : List Char) : Block :=
  if ("### ".toList).isPrefixOf line then
    .h3 (String.mk (listReplaceFirst "### ".toList line))
  else if ("## ".toList).isPrefixOf line then
    .h2 (String.mk (listReplaceFirst "## ".toList line))
  else if ("# ".toList).isPrefixOf line then
    .h1 (String.mk (listReplaceFirst "# ".toList line))
  else if ("- ".toList).isPrefixOf line || ("* ".toList).isPrefixOf line then
    .li (String.mk (line.drop 2))
  else
    match matchNumList line with
    | some r => .liDecimal (String.mk r)
    | none =>
        if ("**".toList).isPrefixOf line && ("**".toList).isSuffixOf line then
          .boldP (String.mk (removeBold line))
        else if line.all Char.isWhitespace then
          .spacer
        else
          .p (String.mk line)

/-- `renderMarkdown`: `if (!text) return null` (a string is falsy exactly
when empty), otherwise `text.split('\n').map(line => ...)`. -/
def renderMarkdown (text : String) : Option (List Block) :=
  if text = "" then none
  else some ((jsSplit '\n' text.toList).map lineToBlock)

/-! ## The base64 payload path (`src/services/geminiService.ts`)

`blobToBase64` feeds the blob to `FileReader.readAsDataURL`, which yields
`"data:<mime>;base64,<base64 of the bytes>"`, then takes
`result.split(',')[1]`.  The platform's base64 is standard RFC 4648 with
`=` padding; it is modelled here byte-for-byte (`b64encode`), together with
the collaborator-side decoding (`b64decode`). -/

/-- The RFC 4648 base64 alphabet used by the platform encoder. -/
def b64Alphabet : List Char :=
  "ABCDEFGHIJKLMNOPQRSTUVWXYZabcdefghijklmnopqrstuvwxyz0123456789+/".toList

/-- Sextet value → base64 character. -/
def encChar (n : Nat) : Char := b64Alphabet.getD n 'A'

/-- Base64 character → sextet value. -/
def decChar (c : Char) : Nat := b64Alphabet.indexOf c

/-- Standard base64 of a byte list (each byte < 256), with `=` padding, as
produced inside the platform's `readAsDataURL`. -/
def b64encode : List Nat → List Char
  | [] => []
  | [a] =>
      [encChar (a / 4), encChar (a % 4 * 16), '=', '=']
  | [a, b] =>
      [encChar (a / 4), encChar (a % 4 * 16 + b / 16), encChar (b % 16 * 4), '=']
  | a :: b :: c :: rest =>
      encChar (a / 4) :: encChar (a % 4 * 16 + b / 16) ::
        encChar (b % 16 * 4 + c / 64) :: encChar (c % 64) :: b64encode rest

/-- Standard base64 decoding (the note-generation collaborator's side of the
round trip): four characters at a time, honouring `=` padding. -/
def b64decode : List Char → List Nat
  | c1 :: c2 :: c3 :: c4 :: rest =>
      if c3 = '=' then
        [decChar c1 * 4 + decChar c2 / 16]
      else if c4 = '=' then
        [decChar c1 * 4 + decChar c2 / 16, decChar c2 % 16 * 16 + decChar c3 / 4]
      else
        (decChar c1 * 4 + decChar c2 / 16) :: (decChar c2 % 16 * 16 + decChar c3 / 4) ::
          (decChar c3 % 4 * 64 + decChar c4) :: b64decode rest
  | _ => []

/-- The head of the data URL `readAsDataURL` produces, up to (not including)
the comma: `data:<mime>;base64`. -/
def dataUrlHead (mime : String) : List Char :=
  "data:".toList ++ mime.toList ++ ";base64".toList

/-- The full `reader.result` string of `readAsDataURL` on a blob. -/
def readAsDataURL (b : Blob) : List Char :=
  dataUrlHead b.mime ++ ',' :: b64encode b.bytes

/-- `blobToBase64` from `src/services/geminiService.ts`:
`result.split(',')[1]` (an out-of-range index is `undefined`, hence
`Option`). -/
def blobToBase64 (b : Blob) : Option (List Char) :=
  (jsSplit ',' (readAsDataURL b)).get? 1

/-! ## Lemmas about the base64 codec and the data-URL split -/

/-- Decoding inverts encoding on every sextet value. -/
theorem dec_enc : ∀ n < 64, decChar (encChar n) = n := by decide

/-- No sextet encodes to the padding character. -/
theorem enc_ne_pad : ∀ n < 64, encChar n ≠ '=' := by decide

/-- No sextet encodes to a comma (the data-URL separator). -/
theorem comma_ne_enc : ∀ n < 64, ',' ≠ encChar n := by decide

/-- Base64 decode is a left inverse of base64 encode on byte lists. -/
theorem b64_roundtrip : ∀ (l : List Nat), (∀ x ∈ l, x < 256) →
    b64decode (b64encode l) = l
  | [], _ => rfl
  | [a], h => by
      have ha : a < 256 := h a (by simp)
      have e1 := dec_enc (a / 4) (by omega)
      have e2 := dec_enc (a % 4 * 16) (by omega)
      simp only [b64encode, b64decode, e1, e2, List.cons.injEq, and_true,
        ite_true, ite_false]
      omega
  | [a, b], h => by
      have ha : a < 256 := h a (by simp)
      have hb : b < 256 := h b (by simp)
      have e1 := dec_enc (a / 4) (by omega)
      have e2 := dec_enc (a % 4 * 16 + b / 16) (by omega)
      have e3 := dec_enc (b % 16 * 4) (by omega)
      have n3 := enc_ne_pad (b % 16 * 4) (by omega)
      simp only [b64encode, b64decode, if_neg n3, e1, e2, e3,
        List.cons.injEq, and_true, ite_true, ite_false]
      omega
  | a :: b :: c :: rest, h => by
      have ha : a < 256 := h a (by simp)
      have hb : b < 256 := h b (by simp)
      have hc : c < 256 := h c (by simp)
      have ih := b64_roundtrip rest (fun x hx => h x (by simp [hx]))
      have e1 := dec_enc (a / 4) (by omega)
      have e2 := dec_enc (a % 4 * 16 + b / 16) (by omega)
      have e3 := dec_enc (b % 16 * 4 + c / 64) (by omega)
      have e4 := dec_enc (c % 64) (by omega)
      have n3 := enc_ne_pad (b % 16 * 4 + c / 64) (by omega)
      have n4 := enc_ne_pad (c % 64) (by omega)
      simp only [b64encode, b64decode, if_neg n3, if_neg n4, e1, e2, e3, e4, ih,
        List.cons.injEq, and_true, ite_true, ite_false]
      omega

/-- The encoder never emits a comma, so `split(',')` cannot cut the base64
body. -/
theorem b64encode_no_comma : ∀ (l : List Nat), (∀ x ∈ l, x < 256) →
    ',' ∉ b64encode l
  | [], _ => by simp [b64encode]
  | [a], h => by
      have ha : a < 256 := h a (by simp)
      simp only [b64encode, List.mem_cons, List.not_mem_nil, or_false]
      push_neg
      exact ⟨comma_ne_enc _ (by omega), comma_ne_enc _ (by omega), by decide, by decide⟩
  | [a, b], h => by
      have ha : a < 256 := h a (by simp)
      have hb : b < 256 := h b (by simp)
      simp only [b64encode, List.mem_cons, List.not_mem_nil, or_false]
      push_neg
      exact ⟨comma_ne_enc _ (by omega), comma_ne_enc _ (by omega),
        comma_ne_enc _ (by omega), by decide⟩
  | a :: b :: c :: rest, h => by
      have ha : a < 256 := h a (by simp)
      have hb : b < 256 := h b (by simp)
      have hc : c < 256 := h c (by simp)
      have ih := b64encode_no_comma rest (fun x hx => h x (by simp [hx]))
      simp only [b64encode, List.mem_cons]
      push_neg
      exact ⟨comma_ne_enc _ (by omega), comma_ne_enc _ (by omega),
        comma_ne_enc _ (by omega), comma_ne_enc _ (by omega), ih⟩

/-- `jsSplit` never returns the empty list of chunks. -/
theorem jsSplit_ne_nil (sep : Char) (l : List Char) : jsSplit sep l ≠ [] := by
  match l with
  | [] => simp [jsSplit]
  | c :: rest =>
      simp only [jsSplit]
      split
      · simp
      · split <;> simp

/-- Splitting a separator-free list yields that single chunk. -/
theorem jsSplit_no_sep (sep : Char) (q : List Char) (hq : sep ∉ q) :
    jsSplit sep q = [q] := by
  induction q with
  | nil => rfl
  | cons c rest ih =>
      have hc : ¬ c = sep := fun hcc => hq (hcc ▸ List.mem_cons_self c rest)
      have hr : sep ∉ rest := fun hmm => hq (List.mem_cons_of_mem c hmm)
      simp only [jsSplit, if_neg hc, ih hr]

/-- Splitting at the first separator occurrence detaches the prefix chunk. -/
theorem jsSplit_append (sep : Char) (p q : List Char) (hp : sep ∉ p) :
    jsSplit sep (p ++ sep :: q) = p :: jsSplit sep q := by
  induction p with
  | nil => simp [jsSplit]
  | cons c cs ih =>
      have hc : ¬ c = sep := fun hcc => hp (hcc ▸ List.mem_cons_self c cs)
      have hcs : sep ∉ cs := fun hmm => hp (List.mem_cons_of_mem c hmm)
      rw [List.cons_append]
      simp only [jsSplit, if_neg hc, ih hcs]

/-- `blobToBase64` returns exactly the base64 text of the blob's bytes, the
data-URL head stripped, whenever the mime string itself contains no comma
(as `audio/webm`, the only mime the app constructs, does not). -/
theorem blobToBase64_eq (b : Blob) (hb : ∀ x ∈ b.bytes, x < 256)
    (hm : ',' ∉ b.mime.toList) : blobToBase64 b = some (b64encode b.bytes) := by
  have hhead : ',' ∉ dataUrlHead b.mime := by
    intro hmem
    rcases List.mem_append.mp hmem with h1 | h2
    · rcases List.mem_append.mp h1 with h1a | h1b
      · exact absurd h1a (by decide)
      · exact hm h1b
    · exact absurd h2 (by decide)
  have henc := b64encode_no_comma b.bytes hb
  unfold blobToBase64 readAsDataURL
  rw [jsSplit_append ',' _ _ hhead, jsSplit_no_sep ',' _ henc]
  rfl

/-! ## Helper lemmas about the state machine -/

/-- No handler in `App.tsx` ever calls `URL.revokeObjectURL`, so no step
changes the release counter. -/
theorem step_urlRevokes (e : Event) (s : AppModel) :
    (step e s).urlRevokes = s.urlRevokes := by
  cases e with
  | startCaptureOk => rfl
  | startCaptureFail => rfl
  | tick => cases h : s.timer <;> simp [step, h]
  | stopCapture bytes =>
      cases h : s.mediaRecorder with
      | none => simp [step, h]
      | some r => by_cases hst : s.appState = .RECORDING <;> simp [step, h, hst]
  | generateNotes =>
      cases h : s.session with
      | none => simp [step, h]
      | some sess => cases hb : sess.audioBlob <;> simp [step, h, hb]
  | genResolve ok notes =>
      cases h : s.inflight with
      | none => simp [step, h]
      | some b => cases ok <;> simp [step, h]
  | reset => rfl

/-- No call site of `setAppState` in `App.tsx` passes `AppState.ERROR`. -/
theorem step_not_error (e : Event) (s : AppModel) (h : s.appState ≠ .ERROR) :
    (step e s).appState ≠ .ERROR := by
  cases e with
  | startCaptureOk => simp [step]
  | startCaptureFail => simpa [step] using h
  | tick => cases ht : s.timer <;> simpa [step, ht] using h
  | stopCapture bytes =>
      cases hm : s.mediaRecorder with
      | none => simpa [step, hm] using h
      | some r =>
          by_cases hst : s.appState = .RECORDING <;> simp [step, hm, hst] <;>
            simpa using h
  | generateNotes =>
      cases hs : s.session with
      | none => simpa [step, hs] using h
      | some sess =>
          cases hb : sess.audioBlob <;> simp [step, hs, hb] <;> simpa using h
  | genResolve ok notes =>
      cases hp : s.inflight with
      | none => simpa [step, hp] using h
      | some b => cases ok <;> simp [step, hp]
  | reset => simp [step]

/-- The `AppState.ERROR` invariant lifts to whole runs. -/
theorem run_not_error : ∀ (es : List Event) (s : AppModel),
    s.appState ≠ .ERROR → (run es s).appState ≠ .ERROR
  | [], _, h => h
  | e :: rest, s, h => run_not_error rest (step e s) (step_not_error e s h)

/-- `urlRevokes` is invariant over whole runs. -/
theorem run_urlRevokes : ∀ (es : List Event) (s : AppModel),
    (run es s).urlRevokes = s.urlRevokes
  | [], _ => rfl
  | e :: rest, s => (run_urlRevokes rest (step e s)).trans (step_urlRevokes e s)

/-! ## Claims C1 – C6 and C10: the session state machine -/

/-- C1: the spec demands `Session.durationSeconds` equal the number of
1-second ticks of the capture (3 ticks ⇒ 3).  The code violates this: the
`onstop` closure captures the render-scoped `duration` value from the moment
`startRecording` ran (always 0), so after start → 3 ticks → stop the machine
is in Review but the constructed session has `duration = 0` even though the
live counter reached 3. -/
theorem c1_stop_duration_stale_closure :
    (run [.startCaptureOk, .tick, .tick, .tick, .stopCapture [7, 7]] init).appState
        = .REVIEW ∧
    (run [.startCaptureOk, .tick, .tick, .tick, .stopCapture [7, 7]] init).duration = 3 ∧
    ((run [.startCaptureOk, .tick, .tick, .tick, .stopCapture [7, 7]] init).session.map
        NoteSession.duration) = some 0 := by
  decide

/-- C2: from Review with a session holding an audio blob and no notes, a
failed `generateNotes` round trip returns the machine to Review with a
non-empty error message and the session — audio artifact and absent notes
included — unchanged, so a retry is possible without re-recording. -/
theorem c2_generate_failure_keeps_session (s : AppModel) (sess : NoteSession)
    (b : Blob) (n : String) (hst : s.appState = .REVIEW) (hs : s.session = some sess)
    (hb : sess.audioBlob = some b) (hn : sess.notes = none) :
    (step (.genResolve false n) (step .generateNotes s)).appState = .REVIEW ∧
    (∃ m, (step (.genResolve false n) (step .generateNotes s)).error = some m ∧ m ≠ "") ∧
    (step (.genResolve false n) (step .generateNotes s)).session = some sess ∧
    sess.audioBlob = some b ∧ sess.notes = none := by
  refine ⟨?_, ?_, ?_, hb, hn⟩ <;> simp [step, hs, hb]

/-- C2 witness: the concrete Review state reached by recording `[1, 2]`. -/
theorem c2_generate_failure_keeps_session_witness :
    (run [.startCaptureOk, .stopCapture [1, 2]] init).appState = .REVIEW ∧
    ((step (.genResolve false "boom")
        (step .generateNotes (run [.startCaptureOk, .stopCapture [1, 2]] init))).appState
          = .REVIEW ∧
     (∃ m, (step (.genResolve false "boom")
        (step .generateNotes (run [.startCaptureOk, .stopCapture [1, 2]] init))).error
          = some m ∧ m ≠ "") ∧
     (step (.genResolve false "boom")
        (step .generateNotes (run [.startCaptureOk, .stopCapture [1, 2]] init))).session
          = some { id := 2, timestamp := 2, audioBlob := some { bytes := [1, 2], mime := "audio/webm" },
                   audioUrl := some 0, duration := 0, notes := none } ∧
     ({ id := 2, timestamp := 2, audioBlob := some { bytes := [1, 2], mime := "audio/webm" },
        audioUrl := some 0, duration := 0, notes := none } : NoteSession).audioBlob
          = some { bytes := [1, 2], mime := "audio/webm" } ∧
     ({ id := 2, timestamp := 2, audioBlob := some { bytes := [1, 2], mime := "audio/webm" },
        audioUrl := some 0, duration := 0, notes := none } : NoteSession).notes = none) :=
  ⟨by decide,
   c2_generate_failure_keeps_session
     (run [.startCaptureOk, .stopCapture [1, 2]] init)
     { id := 2, timestamp := 2, audioBlob := some { bytes := [1, 2], mime := "audio/webm" },
       audioUrl := some 0, duration := 0, notes := none }
     { bytes := [1, 2], mime := "audio/webm" } "boom" (by decide) (by decide) rfl rfl⟩

/-- C3 counterexample: record once and discard; the object URL was created
once but released zero times, refuting "the count of release calls equals the
count of creation calls". -/
theorem c3_counterexample_created_never_released :
    (run [.startCaptureOk, .stopCapture [1], .reset] init).urlCreates = 1 ∧
    (run [.startCaptureOk, .stopCapture [1], .reset] init).urlRevokes = 0 := by
  decide

/-- C3 (amended): playback handles are never released at all —
`URL.revokeObjectURL` is absent from the source, so over every event sequence
the release count stays 0 (hence no double release, but every handle of a
discarded or replaced session leaks). -/
theorem c3_amended_handles_never_released (es : List Event) :
    (run es init).urlRevokes = 0 :=
  run_urlRevokes es init

/-- C4 counterexample: reset while Processing, then the in-flight call
resolves successfully.  The now-absent session is indeed not resurrected, but
the machine's state changes from Idle to Completed — the claim's "surfaces no
error or state change" (and the claimed identity comparison) is false. -/
theorem c4_counterexample_late_resolution_changes_state :
    (run [.startCaptureOk, .stopCapture [1, 2], .generateNotes, .reset] init).appState
        = .IDLE ∧
    (run [.startCaptureOk, .stopCapture [1, 2], .generateNotes, .reset] init).session
        = none ∧
    (run [.startCaptureOk, .stopCapture [1, 2], .generateNotes, .reset,
          .genResolve true "notes"] init).appState = .COMPLETED := by
  decide

/-- C4 (amended): after a reset during Processing, the late resolution never
mutates or resurrects the absent session (the functional `setSession` update
maps `null` to `null`), but it does change the machine state — to Completed
on success, or to Review with an error message on failure; no
session-identity comparison exists in the code. -/
theorem c4_amended_stale_resolution (s : AppModel) (b : Blob) (n : String)
    (hs : s.session = none) (hp : s.inflight = some b) :
    ((step (.genResolve true n) s).session = none ∧
     (step (.genResolve true n) s).appState = .COMPLETED) ∧
    ((step (.genResolve false n) s).session = none ∧
     (step (.genResolve false n) s).appState = .REVIEW ∧
     (step (.genResolve false n) s).error ≠ none) := by
  refine ⟨⟨?_, ?_⟩, ?_, ?_, ?_⟩ <;> simp [step, hs, hp]

/-- C4 witness: the amended behaviour at the concrete post-reset state. -/
theorem c4_amended_stale_resolution_witness :
    (run [.startCaptureOk, .stopCapture [1, 2], .generateNotes, .reset] init).session
        = none ∧
    (run [.startCaptureOk, .stopCapture [1, 2], .generateNotes, .reset] init).inflight
        = some { bytes := [1, 2], mime := "audio/webm" } ∧
    (((step (.genResolve true "n")
        (run [.startCaptureOk, .stopCapture [1, 2], .generateNotes, .reset] init)).session
          = none ∧
      (step (.genResolve true "n")
        (run [.startCaptureOk, .stopCapture [1, 2], .generateNotes, .reset] init)).appState
          = .COMPLETED) ∧
     ((step (.genResolve false "n")
        (run [.startCaptureOk, .stopCapture [1, 2], .generateNotes, .reset] init)).session
          = none ∧
      (step (.genResolve false "n")
        (run [.startCaptureOk, .stopCapture [1, 2], .generateNotes, .reset] init)).appState
          = .REVIEW ∧
      (step (.genResolve false "n")
        (run [.startCaptureOk, .stopCapture [1, 2], .generateNotes, .reset] init)).error
          ≠ none)) :=
  ⟨by decide, by decide,
   c4_amended_stale_resolution
     (run [.startCaptureOk, .stopCapture [1, 2], .generateNotes, .reset] init)
     { bytes := [1, 2], mime := "audio/webm" } "n" (by decide) (by decide)⟩

/-- C5: a failed `getUserMedia` inside `startRecording` only sets the error
message ("Microphone access denied or not available.", non-empty): the
machine stays in Idle and no stream, timer, recorder, session or counter
state was acquired or changed — nothing to unwind. -/
theorem c5_start_failure_stays_idle (s : AppModel) (h : s.appState = .IDLE)
    (hstr : s.stream = none) (ht : s.timer = none) :
    (step .startCaptureFail s).appState = .IDLE ∧
    (∃ m, (step .startCaptureFail s).error = some m ∧ m ≠ "") ∧
    (step .startCaptureFail s).stream = none ∧
    (step .startCaptureFail s).timer = none ∧
    (step .startCaptureFail s).mediaRecorder = s.mediaRecorder ∧
    (step .startCaptureFail s).session = s.session ∧
    (step .startCaptureFail s).duration = s.duration := by
  refine ⟨?_, ⟨_, rfl, by decide⟩, ?_, ?_, rfl, rfl, rfl⟩ <;> simp [step, h, hstr, ht]

/-- C5 witness: the failure behaviour at the initial Idle state. -/
theorem c5_start_failure_stays_idle_witness :
    init.appState = .IDLE ∧ init.stream = none ∧ init.timer = none ∧
    ((step .startCaptureFail init).appState = .IDLE ∧
     (∃ m, (step .startCaptureFail init).error = some m ∧ m ≠ "") ∧
     (step .startCaptureFail init).stream = none ∧
     (step .startCaptureFail init).timer = none ∧
     (step .startCaptureFail init).mediaRecorder = init.mediaRecorder ∧
     (step .startCaptureFail init).session = init.session ∧
     (step .startCaptureFail init).duration = init.duration) :=
  ⟨rfl, rfl, rfl, c5_start_failure_stays_idle init rfl rfl rfl⟩

/-- C6 counterexample: in the Completed state reached by a full successful
run, the session still holds an audio blob, so dispatching `generateNotes`
(outside its declared source state Review) is *not* a no-op: it moves the
machine to Processing. -/
theorem c6_counterexample_generate_outside_review :
    (run [.startCaptureOk, .stopCapture [1], .generateNotes, .genResolve true "n"] init).appState
        = .COMPLETED ∧
    (step .generateNotes
      (run [.startCaptureOk, .stopCapture [1], .generateNotes, .genResolve true "n"] init)).appState
        = .PROCESSING ∧
    step .generateNotes
      (run [.startCaptureOk, .stopCapture [1], .generateNotes, .genResolve true "n"] init)
      ≠ run [.startCaptureOk, .stopCapture [1], .generateNotes, .genResolve true "n"] init := by
  decide

/-- C6 (amended): the state is always one of the six `AppState` members, and
`stopCapture` outside Recording is a no-op, as is `generateNotes` with no
session or no audio artifact; but `generateNotes` is guarded only by artifact
presence, not by state — dispatched in Completed with an artifact present it
re-enters Processing. -/
theorem c6_amended_event_guards (s : AppModel) (bytes : List Nat) (sess : NoteSession) :
    (∀ t : AppState, t = .IDLE ∨ t = .RECORDING ∨ t = .REVIEW ∨ t = .PROCESSING ∨
        t = .COMPLETED ∨ t = .ERROR) ∧
    (s.appState ≠ .RECORDING → step (.stopCapture bytes) s = s) ∧
    (s.session = none → step .generateNotes s = s) ∧
    (s.session = some sess → sess.audioBlob = none → step .generateNotes s = s) ∧
    (∀ b : Blob, s.appState = .COMPLETED → s.session = some sess →
        sess.audioBlob = some b → (step .generateNotes s).appState = .PROCESSING) := by
  refine ⟨?_, ?_, ?_, ?_, ?_⟩
  · intro t; cases t <;> simp
  · intro h
    cases hm : s.mediaRecorder with
    | none => simp [step, hm]
    | some r => simp [step, hm, h]
  · intro h; simp [step, h]
  · intro h hb; simp [step, h, hb]
  · intro b _ h hb; simp [step, h, hb]

/-- C6 witness: the guards at the concrete Completed state of the
counterexample run. -/
theorem c6_amended_event_guards_witness :
    (run [.startCaptureOk, .stopCapture [1], .generateNotes, .genResolve true "n"] init).appState
        = .COMPLETED ∧
    (step .generateNotes
      (run [.startCaptureOk, .stopCapture [1], .generateNotes, .genResolve true "n"] init)).appState
        = .PROCESSING :=
  ⟨by decide,
   (c6_amended_event_guards
      (run [.startCaptureOk, .stopCapture [1], .generateNotes, .genResolve true "n"] init)
      []
      { id := 2, timestamp := 2, audioBlob := some { bytes := [1], mime := "audio/webm" },
        audioUrl := some 0, duration := 0, notes := some "n" }).2.2.2.2
     { bytes := [1], mime := "audio/webm" } (by decide) (by decide) rfl⟩

/-- C10: no `setAppState` call site ever assigns the sixth enum member
(`ERROR`), so from Idle every reachable state is one of the other five, and a
note-generation failure lands in Review, not in a Failed state. -/
theorem c10_error_state_never_assigned :
    (∀ es : List Event,
        (run es init).appState = .IDLE ∨ (run es init).appState = .RECORDING ∨
        (run es init).appState = .REVIEW ∨ (run es init).appState = .PROCESSING ∨
        (run es init).appState = .COMPLETED) ∧
    (∀ (s : AppModel) (b : Blob) (n : String),
        (step (.genResolve false n) { s with inflight := some b }).appState = .REVIEW) := by
  constructor
  · intro es
    have h := run_not_error es init (by decide)
    cases hs : (run es init).appState <;> simp_all
  · intro s b n; simp [step]

/-! ## Claim C7: the base64 payload -/

/-- C7: the payload handed to the note-generation collaborator is the blob's
base64 text with the data-URL head stripped; base64 decode ∘ encode is the
identity on the artifact bytes; and after a failed generation the retry on
the same session hands the collaborator the very same blob, so the original
artifact is transmitted byte-for-byte. -/
theorem c7_payload_base64_roundtrip (b : Blob) (hb : ∀ x ∈ b.bytes, x < 256)
    (hm : ',' ∉ b.mime.toList) :
    blobToBase64 b = some (b64encode b.bytes) ∧
    b64decode (b64encode b.bytes) = b.bytes ∧
    (∀ (s : AppModel) (sess : NoteSession) (n : String),
        s.session = some sess → sess.audioBlob = some b →
        (step .generateNotes s).inflight = some b ∧
        (step .generateNotes (step (.genResolve false n)
            (step .generateNotes s))).inflight = some b) := by
  refine ⟨blobToBase64_eq b hb hm, b64_roundtrip b.bytes hb, ?_⟩
  intro s sess n hs hbb
  constructor
  · simp [step, hs, hbb]
  · simp [step, hs, hbb]

/-- A concrete blob, session and Review-state model used by witnesses. -/
def cBlob : Blob := { bytes := [0, 1, 255], mime := "audio/webm" }

/-- A concrete session holding `cBlob`, notes absent. -/
def cSession : NoteSession :=
  { id := 0, timestamp := 0, audioBlob := some cBlob, audioUrl := some 0
    duration := 3, notes := none }

/-- A concrete Review state holding `cSession`. -/
def cReview : AppModel := { init with session := some cSession, appState := .REVIEW }

/-- C7 witness: the concrete blob `[0, 1, 255]` of type `audio/webm`, inside
a Review state, first attempt and retry. -/
theorem c7_payload_base64_roundtrip_witness :
    (∀ x ∈ cBlob.bytes, x < 256) ∧
    (',' ∉ cBlob.mime.toList) ∧
    blobToBase64 cBlob = some (b64encode cBlob.bytes) ∧
    b64decode (b64encode cBlob.bytes) = cBlob.bytes ∧
    (step .generateNotes cReview).inflight = some cBlob :=
  ⟨by decide, by decide,
   (c7_payload_base64_roundtrip cBlob (by decide) (by decide)).1,
   (c7_payload_base64_roundtrip cBlob (by decide) (by decide)).2.1,
   ((c7_payload_base64_roundtrip cBlob (by decide) (by decide)).2.2
      cReview cSession "n" rfl rfl).1⟩

/-! ## Claim C8: the line formatter -/

/-- C8 counterexample: on the empty input text the formatter returns `null`
— zero blocks — while the input still splits into one (empty) line, so
"exactly one typed display block per input line" fails at `""`. -/
theorem c8_counterexample_empty_text :
    renderMarkdown "" = none ∧ (jsSplit '\n' "".toList).length = 1 := by
  decide

/-- C8 (amended): for every *non-empty* input text the formatter produces
exactly one typed display block per input line, each line classified
independently by its prefix (`###`/`##`/`#` heading 3/2/1, `- `/`* `/digits-
dot-space list item, whole-line `**bold**` paragraph, blank spacer, otherwise
plain paragraph); in particular `"# Topic\n- point one"` yields exactly
`[Heading(level=1,"Topic"), ListItem("point one")]`. -/
theorem c8_amended_one_block_per_line (text : String) (h : text ≠ "") :
    renderMarkdown "# Topic\n- point one"
        = some [.h1 "Topic", .li "point one"] ∧
    (∃ bs, renderMarkdown text = some bs ∧
        bs.length = (jsSplit '\n' text.toList).length ∧
        bs = (jsSplit '\n' text.toList).map lineToBlock) ∧
    (∀ line : List Char, lineToBlock ("### ".toList ++ line) = .h3 (String.mk line)) ∧
    (∀ line : List Char, lineToBlock ("## ".toList ++ line) = .h2 (String.mk line)) ∧
    (∀ line : List Char, lineToBlock ("# ".toList ++ line) = .h1 (String.mk line)) ∧
    (∀ line : List Char, lineToBlock ("- ".toList ++ line) = .li (String.mk line)) ∧
    (∀ line : List Char, lineToBlock ("* ".toList ++ line) = .li (String.mk line)) ∧
    (∀ line : List Char,
        lineToBlock ('4' :: '2' :: '.' :: ' ' :: line) = .liDecimal (String.mk line)) ∧
    lineToBlock "**Bold**".toList = .boldP "Bold" ∧
    lineToBlock "".toList = .spacer ∧
    lineToBlock "plain text".toList = .p "plain text" := by
  refine ⟨by decide,
    ⟨(jsSplit '\n' text.toList).map lineToBlock, by simp [renderMarkdown, h], by simp, rfl⟩,
    ?_, ?_, ?_, ?_, ?_, ?_, by decide, by decide, by decide⟩ <;>
    intro line
  · simp [lineToBlock, listReplaceFirst, List.isPrefixOf]
  · simp [lineToBlock, listReplaceFirst, List.isPrefixOf]
  · simp [lineToBlock, listReplaceFirst, List.isPrefixOf]
  · simp [lineToBlock, List.isPrefixOf]
  · simp [lineToBlock, List.isPrefixOf]
  · simp [lineToBlock, matchNumList, List.isPrefixOf, List.takeWhile, List.dropWhile]

/-- C8 witness: the amended statement at the concrete text of the claim's
scenario. -/
theorem c8_amended_one_block_per_line_witness :
    ("# Topic\n- point one" : String) ≠ "" ∧
    renderMarkdown "# Topic\n- point one" = some [.h1 "Topic", .li "point one"] :=
  ⟨by decide,
   (c8_amended_one_block_per_line "# Topic\n- point one" (by decide)).1⟩

/-! ## Claim C9: the visualizer's audio graph -/

/-- One effect cycle leaves no connected edges behind: the setup's only
`connect` is source → analyser, and the cleanup's `source.disconnect()`
removes every edge out of the (just-installed) source node. -/
theorem vizRound_edges (i : VizInput) (s : VizState) (h : s.edges = []) :
    (vizRound i s).edges = [] := by
  by_cases hi : (i.hasStream && i.isRecording && i.hasCanvas) = true
  · simp [vizRound, vizCleanup, vizSetup, hi, h]
  · simp [vizRound, vizCleanup, vizSetup, hi, h]

/-- Neither the effect body nor its cleanup ever calls `close()` on the
shared context. -/
theorem vizRound_ctxClosed (i : VizInput) (s : VizState) :
    (vizRound i s).ctxClosed = s.ctxClosed := by
  by_cases hi : (i.hasStream && i.isRecording && i.hasCanvas) = true <;>
    simp [vizRound, vizCleanup, vizSetup, hi]

/-- The edge and closed-flag invariants lift to whole sequences of cycles. -/
theorem vizRun_edges_ctxClosed : ∀ (rounds : List VizInput) (s : VizState),
    s.edges = [] → s.ctxClosed = false →
    (vizRun rounds s).edges = [] ∧ (vizRun rounds s).ctxClosed = false
  | [], _, he, hc => ⟨he, hc⟩
  | i :: rest, s, he, hc =>
      vizRun_edges_ctxClosed rest (vizRound i s) (vizRound_edges i s he)
        ((vizRound_ctxClosed i s).trans hc)

/-- C9: after every sequence of effect cycles (each cycle ending at an
"analysis stopped" point — dependency change or teardown), the audio graph
downstream of the shared context holds no connection, the shared context was
never closed, and an already-created context is reused unchanged by every
subsequent cycle. -/
theorem c9_cleanup_disconnects_reuses_context :
    (∀ rounds : List VizInput,
        (vizRun rounds vizInit).edges = [] ∧ (vizRun rounds vizInit).ctxClosed = false) ∧
    (∀ (i : VizInput) (s : VizState),
        (vizRound i s).audioContext = s.audioContext ∨ s.audioContext = none) := by
  constructor
  · intro rounds
    exact vizRun_edges_ctxClosed rounds vizInit rfl rfl
  · intro i s
    cases hc : s.audioContext with
    | none => exact Or.inr rfl
    | some c =>
        left
        by_cases hi : (i.hasStream && i.isRecording && i.hasCanvas) = true <;>
          simp [vizRound, vizCleanup, vizSetup, hi, hc]

end LectureLogic
